import Mathlib

/-!
Shallow embedding of the minotari_payment_processor store layer
(src/db/payment.rs and src/db/payment_batch.rs) and of the transaction
signer worker (src/workers/transaction_signer.rs).

The database is modelled as in-memory lists of rows; each SQL statement
becomes a pure transformation of that state.  The created_at and
updated_at timestamp columns are not modelled (no claim concerns them);
string-typed columns stay strings and i64 columns become Int.
Transactions that the source runs through sqlx are modelled either as a
single state transformation or, where atomicity itself is claimed, as a
sequence of fallible statements with explicit commit-or-rollback
semantics driven by injected storage errors.
-/

/-- PaymentStatus from src/db/payment.rs. -/
inductive PaymentStatus
  | received
  | batched
  | confirmed
  | failed
  deriving DecidableEq, Repr

/-- PaymentBatchStatus from src/db/payment_batch.rs. -/
inductive PaymentBatchStatus
  | pendingBatching
  | awaitingSignature
  | signingInProgress
  | awaitingBroadcast
  | broadcasting
  | awaitingConfirmation
  | confirmed
  | failed
  deriving DecidableEq, Repr

/-- One row of the payments table (struct Payment, timestamps omitted). -/
structure Payment where
  id : String
  client_id : String
  account_name : String
  status : PaymentStatus
  payment_batch_id : Option String
  recipient_address : String
  amount : Int
  payment_id : Option String
  failure_reason : Option String
  deriving DecidableEq, Repr

/-- One row of the payment_batches table (struct PaymentBatch, timestamps omitted). -/
structure PaymentBatch where
  id : String
  account_name : String
  status : PaymentBatchStatus
  pr_idempotency_key : String
  unsigned_tx_json : Option String
  signed_tx_json : Option String
  error_message : Option String
  retry_count : Int
  mined_height : Option Int
  mined_header_hash : Option String
  mined_timestamp : Option Int
  deriving DecidableEq, Repr

/-- struct PaymentBatchUpdate: the partial-update record; a none field is
not written by the generated UPDATE statement. -/
structure PaymentBatchUpdate where
  status : Option PaymentBatchStatus := none
  unsigned_tx_json : Option String := none
  signed_tx_json : Option String := none
  error_message : Option String := none
  mined_height : Option Int := none
  mined_header_hash : Option String := none
  mined_timestamp : Option Int := none
  deriving DecidableEq, Repr

/-- The persistent store: the two tables. -/
structure DbState where
  payments : List Payment
  batches : List PaymentBatch
  deriving DecidableEq, Repr

/-- const MAX_RETRIES from src/db/payment_batch.rs line 10. -/
def MAX_RETRIES : Int := 10

/-- Payment::update_payment_status (payment.rs lines 185 to 208).  The SQL
statement unconditionally writes status, payment_batch_id and
failure_reason for every row whose id is in the supplied list; a None
argument is bound as NULL and therefore overwrites the column with NULL. -/
def Payment.update_payment_status (s : DbState) (payment_ids : List String)
    (status : PaymentStatus) (payment_batch_id : Option String)
    (failure_reason : Option String) : DbState :=
  { s with payments := s.payments.map fun p =>
      if p.id ∈ payment_ids then
        { p with status := status, payment_batch_id := payment_batch_id,
                 failure_reason := failure_reason }
      else p }

/-- Payment::update_payments_to_batched (payment.rs lines 211 to 217). -/
def Payment.update_payments_to_batched (s : DbState) (payment_ids : List String)
    (batch_id : String) : DbState :=
  Payment.update_payment_status s payment_ids PaymentStatus.batched (some batch_id) none

/-- Payment::update_payments_to_confirmed (payment.rs lines 220 to 225):
passes none for both payment_batch_id and failure_reason. -/
def Payment.update_payments_to_confirmed (s : DbState) (payment_ids : List String) : DbState :=
  Payment.update_payment_status s payment_ids PaymentStatus.confirmed none none

/-- Payment::update_payments_to_failed (payment.rs lines 228 to 234):
passes none for payment_batch_id. -/
def Payment.update_payments_to_failed (s : DbState) (payment_ids : List String)
    (reason : String) : DbState :=
  Payment.update_payment_status s payment_ids PaymentStatus.failed none (some reason)

/-- Payment::fail_payments_in_batch (payment.rs lines 237 to 256): sets
status and failure_reason on every row whose payment_batch_id equals the
given batch id; there is no condition on the current status and the
payment_batch_id column itself is not written. -/
def Payment.fail_payments_in_batch (s : DbState) (batch_id : String)
    (reason : String) : DbState :=
  { s with payments := s.payments.map fun p =>
      if p.payment_batch_id = some batch_id then
        { p with status := PaymentStatus.failed, failure_reason := some reason }
      else p }

/-- Effect of the QueryBuilder UPDATE in
PaymentBatch::update_payment_batch_status on a single row: only the fields
set in the update record are written, and retry_count is bumped when the
flag is set. -/
def applyBatchUpdate (u : PaymentBatchUpdate) (increment_retry_count : Bool)
    (b : PaymentBatch) : PaymentBatch :=
  { b with
    status := u.status.getD b.status,
    unsigned_tx_json := match u.unsigned_tx_json with
      | some v => some v
      | none => b.unsigned_tx_json,
    signed_tx_json := match u.signed_tx_json with
      | some v => some v
      | none => b.signed_tx_json,
    error_message := match u.error_message with
      | some v => some v
      | none => b.error_message,
    mined_height := match u.mined_height with
      | some v => some v
      | none => b.mined_height,
    mined_header_hash := match u.mined_header_hash with
      | some v => some v
      | none => b.mined_header_hash,
    mined_timestamp := match u.mined_timestamp with
      | some v => some v
      | none => b.mined_timestamp,
    retry_count := if increment_retry_count then b.retry_count + 1 else b.retry_count }

/-- PaymentBatch::update_payment_batch_status (payment_batch.rs lines 203
to 262).  The generated statement ends in WHERE id = ?; it is keyed on the
batch id only, with no condition on the current status. -/
def PaymentBatch.update_payment_batch_status (s : DbState) (batch_id : String)
    (u : PaymentBatchUpdate) (increment_retry_count : Bool) : DbState :=
  { s with batches := s.batches.map fun b =>
      if b.id = batch_id then applyBatchUpdate u increment_retry_count b else b }

/-- PaymentBatch::find_by_id (payment_batch.rs lines 86 to 111). -/
def PaymentBatch.find_by_id (s : DbState) (batch_id : String) : Option PaymentBatch :=
  s.batches.find? fun b => decide (b.id = batch_id)

/-- PaymentBatch::find_by_status (payment_batch.rs lines 172 to 201). -/
def PaymentBatch.find_by_status (s : DbState) (status : PaymentBatchStatus) : List PaymentBatch :=
  s.batches.filter fun b => decide (b.status = status)

/-- PaymentBatch::create_with_payments (payment_batch.rs lines 114 to
169).  One transaction: INSERT the batch row with status PENDING_BATCHING
(retry_count takes the schema default 0, matching the data model), then
UPDATE every payment whose id is in the list to status BATCHED with
payment_batch_id set to the new batch id.  The UPDATE has no condition on
the payments' current status.  The random UUID of the new batch is passed
in as the batch_id argument. -/
def PaymentBatch.create_with_payments (s : DbState)
    (batch_id account_name pr_idempotency_key : String)
    (payment_ids : List String) : DbState :=
  { payments := s.payments.map fun p =>
      if p.id ∈ payment_ids then
        { p with status := PaymentStatus.batched, payment_batch_id := some batch_id }
      else p,
    batches := s.batches ++
      [{ id := batch_id,
         account_name := account_name,
         status := PaymentBatchStatus.pendingBatching,
         pr_idempotency_key := pr_idempotency_key,
         unsigned_tx_json := none,
         signed_tx_json := none,
         error_message := none,
         retry_count := 0,
         mined_height := none,
         mined_header_hash := none,
         mined_timestamp := none }] }

/-- PaymentBatch::update_to_awaiting_signature (payment_batch.rs lines 265 to 276). -/
def PaymentBatch.update_to_awaiting_signature (s : DbState)
    (batch_id unsigned_tx_json : String) : DbState :=
  PaymentBatch.update_payment_batch_status s batch_id
    { status := some PaymentBatchStatus.awaitingSignature,
      unsigned_tx_json := some unsigned_tx_json } false

/-- PaymentBatch::update_to_signing_in_progress (payment_batch.rs lines 279 to 285). -/
def PaymentBatch.update_to_signing_in_progress (s : DbState) (batch_id : String) : DbState :=
  PaymentBatch.update_payment_batch_status s batch_id
    { status := some PaymentBatchStatus.signingInProgress } false

/-- PaymentBatch::update_to_awaiting_broadcast (payment_batch.rs lines 288 to 299). -/
def PaymentBatch.update_to_awaiting_broadcast (s : DbState)
    (batch_id signed_tx_json : String) : DbState :=
  PaymentBatch.update_payment_batch_status s batch_id
    { status := some PaymentBatchStatus.awaitingBroadcast,
      signed_tx_json := some signed_tx_json } false

/-- PaymentBatch::update_to_broadcasting (payment_batch.rs lines 302 to 308). -/
def PaymentBatch.update_to_broadcasting (s : DbState) (batch_id : String) : DbState :=
  PaymentBatch.update_payment_batch_status s batch_id
    { status := some PaymentBatchStatus.broadcasting } false

/-- PaymentBatch::update_to_awaiting_confirmation (payment_batch.rs lines 311 to 320). -/
def PaymentBatch.update_to_awaiting_confirmation (s : DbState) (batch_id : String) : DbState :=
  PaymentBatch.update_payment_batch_status s batch_id
    { status := some PaymentBatchStatus.awaitingConfirmation } false

/-- PaymentBatch::update_to_confirmed (payment_batch.rs lines 323 to 338);
the header hash argument is the hex encoding already applied. -/
def PaymentBatch.update_to_confirmed (s : DbState) (batch_id : String)
    (mined_height : Int) (mined_header_hash : String) (mined_timestamp : Int) : DbState :=
  PaymentBatch.update_payment_batch_status s batch_id
    { status := some PaymentBatchStatus.confirmed,
      mined_height := some mined_height,
      mined_header_hash := some mined_header_hash,
      mined_timestamp := some mined_timestamp } false

/-- PaymentBatch::update_to_failed (payment_batch.rs lines 341 to 358):
in one transaction, write the batch row to FAILED with the error message,
then fail every payment of the batch with the same reason. -/
def PaymentBatch.update_to_failed (s : DbState) (batch_id error_message : String) : DbState :=
  Payment.fail_payments_in_batch
    (PaymentBatch.update_payment_batch_status s batch_id
      { status := some PaymentBatchStatus.failed,
        error_message := some error_message } false)
    batch_id error_message

/-- PaymentBatch::increment_retry_count (payment_batch.rs lines 361 to
389): read the batch (RowNotFound if absent); if retry_count + 1 reaches
MAX_RETRIES, perform the same two statements as update_to_failed, else
bump retry_count only. -/
def PaymentBatch.increment_retry_count (s : DbState)
    (batch_id error_message : String) : Except String DbState :=
  match PaymentBatch.find_by_id s batch_id with
  | none => Except.error "RowNotFound"
  | some batch =>
    if batch.retry_count + 1 ≥ MAX_RETRIES then
      Except.ok (PaymentBatch.update_to_failed s batch_id error_message)
    else
      Except.ok (PaymentBatch.update_payment_batch_status s batch_id {} true)

/-- Commit-or-rollback semantics of a sqlx transaction: on error nothing
of the transaction is persisted, so the persisted state is the state at
transaction begin. -/
def persistedState (s : DbState) (r : Except String DbState) : DbState :=
  match r with
  | Except.ok s2 => s2
  | Except.error _ => s

/-- A single fallible SQL statement inside a transaction; the boolean
injects a storage failure. -/
def run_statement (fails : Bool) (f : DbState → DbState) (s : DbState) :
    Except String DbState :=
  if fails then Except.error "StorageFailure" else Except.ok (f s)

/-- PaymentBatch::update_to_failed with its transaction made explicit:
the two statements of payment_batch.rs lines 346 to 356 run in order, and
an error from either aborts the transaction. -/
def PaymentBatch.update_to_failed_tx (e1 e2 : Bool) (s : DbState)
    (batch_id error_message : String) : Except String DbState :=
  match run_statement e1
      (fun t => PaymentBatch.update_payment_batch_status t batch_id
        { status := some PaymentBatchStatus.failed,
          error_message := some error_message } false) s with
  | Except.error e => Except.error e
  | Except.ok s1 =>
    match run_statement e2
        (fun t => Payment.fail_payments_in_batch t batch_id error_message) s1 with
    | Except.error e => Except.error e
    | Except.ok s2 => Except.ok s2

/-- Repeated transient errors: each one is reported through
increment_retry_count, whose transaction commits on ok and rolls back on
error. -/
def apply_transient_errors (s : DbState) (batch_id : String) : List String → DbState
  | [] => s
  | r :: rs =>
    apply_transient_errors
      (persistedState s (PaymentBatch.increment_retry_count s batch_id r)) batch_id rs

/-- Outcome of the wallet CLI subprocess in the transaction signer:
either the process could not be spawned, or it exited with a success flag
and the captured stderr. -/
inductive CliResult
  | spawnError (message : String)
  | exited (success : Bool) (stderr_text : String)
  deriving DecidableEq, Repr

/-- Body of the per-batch loop of process_transactions_to_sign
(transaction_signer.rs lines 35 to 93) for one batch: first move the batch
to SIGNING_IN_PROGRESS; if unsigned_tx_json is absent, return the anyhow
error (aborting the whole tick); otherwise dispatch on the CLI outcome.
out_contents models the contents of the CLI output file read on success. -/
def process_one_batch (s : DbState) (b : PaymentBatch) (cli : CliResult)
    (out_contents : String) : DbState × Option String :=
  let s1 := PaymentBatch.update_to_signing_in_progress s b.id
  match b.unsigned_tx_json with
  | none => (s1, some ("Batch " ++ b.id ++ " has no unsigned_tx_json"))
  | some _ =>
    match cli with
    | CliResult.exited true _ =>
      (PaymentBatch.update_to_awaiting_broadcast s1 b.id out_contents, none)
    | CliResult.exited false stderr_text =>
      (PaymentBatch.update_to_failed s1 b.id stderr_text, none)
    | CliResult.spawnError e =>
      (PaymentBatch.update_to_failed s1 b.id ("CLI execution error: " ++ e), none)

/-- The for-loop of process_transactions_to_sign over the batches found in
AWAITING_SIGNATURE; an error aborts the loop, returning the state persisted
so far together with the error. -/
def signLoop (env : String → CliResult × String) :
    List PaymentBatch → DbState → DbState × Option String
  | [], s => (s, none)
  | b :: rest, s =>
    let step := process_one_batch s b (env b.id).1 (env b.id).2
    match step.2 with
    | none => signLoop env rest step.1
    | some e => (step.1, some e)

/-- process_transactions_to_sign (transaction_signer.rs lines 27 to 97):
select the AWAITING_SIGNATURE batches, then run the loop; env carries the
CLI outcome and output-file contents per batch id. -/
def process_transactions_to_sign (env : String → CliResult × String)
    (s : DbState) : DbState × Option String :=
  signLoop env (PaymentBatch.find_by_status s PaymentBatchStatus.awaitingSignature) s

/-- States reachable through the batch operations the store exposes,
starting from the empty store; batch creation uses a fresh UUID, modelled
by the freshness hypothesis on the new batch id. -/
inductive StoreReachable : DbState → Prop
  | init : StoreReachable { payments := [], batches := [] }
  | create (s : DbState) (batch_id account_name pr_idempotency_key : String)
      (payment_ids : List String) :
      StoreReachable s → (∀ b ∈ s.batches, b.id ≠ batch_id) →
      StoreReachable (PaymentBatch.create_with_payments s batch_id account_name
        pr_idempotency_key payment_ids)
  | to_awaiting_signature (s : DbState) (batch_id json : String) :
      StoreReachable s →
      StoreReachable (PaymentBatch.update_to_awaiting_signature s batch_id json)
  | to_signing_in_progress (s : DbState) (batch_id : String) :
      StoreReachable s →
      StoreReachable (PaymentBatch.update_to_signing_in_progress s batch_id)
  | to_awaiting_broadcast (s : DbState) (batch_id json : String) :
      StoreReachable s →
      StoreReachable (PaymentBatch.update_to_awaiting_broadcast s batch_id json)
  | to_broadcasting (s : DbState) (batch_id : String) :
      StoreReachable s →
      StoreReachable (PaymentBatch.update_to_broadcasting s batch_id)
  | to_awaiting_confirmation (s : DbState) (batch_id : String) :
      StoreReachable s →
      StoreReachable (PaymentBatch.update_to_awaiting_confirmation s batch_id)
  | to_confirmed (s : DbState) (batch_id : String) (h : Int) (hash : String) (t : Int) :
      StoreReachable s →
      StoreReachable (PaymentBatch.update_to_confirmed s batch_id h hash t)
  | to_failed (s : DbState) (batch_id msg : String) :
      StoreReachable s →
      StoreReachable (PaymentBatch.update_to_failed s batch_id msg)
  | retry (s s2 : DbState) (batch_id msg : String) :
      StoreReachable s →
      PaymentBatch.increment_retry_count s batch_id msg = Except.ok s2 →
      StoreReachable s2
  | payments_bulk (s : DbState) (payment_ids : List String) (st : PaymentStatus)
      (pbid fr : Option String) :
      StoreReachable s →
      StoreReachable (Payment.update_payment_status s payment_ids st pbid fr)

/-- The inductive invariant behind the retry bound: batch ids are unique
and every retry_count is at most MAX_RETRIES - 1. -/
def BatchRetryInv (s : DbState) : Prop :=
  (s.batches.map PaymentBatch.id).Nodup ∧
    ∀ b ∈ s.batches, b.retry_count ≤ MAX_RETRIES - 1

/-- Sample row: a BATCHED payment belonging to batch b1. -/
def samplePaymentBatched : Payment :=
  { id := "p1", client_id := "c1", account_name := "alice",
    status := PaymentStatus.batched, payment_batch_id := some "b1",
    recipient_address := "addr1", amount := 100, payment_id := none,
    failure_reason := none }

/-- Sample row: a CONFIRMED payment still linked to batch b1. -/
def samplePaymentConfirmed : Payment :=
  { samplePaymentBatched with status := PaymentStatus.confirmed }

/-- Sample row: batch b1 awaiting broadcast. -/
def sampleBatchAwaitingBroadcast : PaymentBatch :=
  { id := "b1", account_name := "alice",
    status := PaymentBatchStatus.awaitingBroadcast,
    pr_idempotency_key := "k1", unsigned_tx_json := some "U",
    signed_tx_json := some "S", error_message := none, retry_count := 0,
    mined_height := none, mined_header_hash := none, mined_timestamp := none }

/-- Sample row: batch b1 already CONFIRMED. -/
def sampleBatchConfirmed : PaymentBatch :=
  { sampleBatchAwaitingBroadcast with
    status := PaymentBatchStatus.confirmed,
    signed_tx_json := some "S" }

/-- Sample row: batch b1 awaiting signature with an unsigned transaction. -/
def sampleBatchAwaitingSignature : PaymentBatch :=
  { sampleBatchAwaitingBroadcast with
    status := PaymentBatchStatus.awaitingSignature,
    signed_tx_json := none }

/-- Sample row: batch b1 awaiting signature but with no unsigned_tx_json. -/
def sampleBatchNoUnsigned : PaymentBatch :=
  { sampleBatchAwaitingSignature with unsigned_tx_json := none }

/-- Sample store: the batched payment p1 inside batch b1. -/
def sampleDb : DbState :=
  { payments := [samplePaymentBatched], batches := [sampleBatchAwaitingBroadcast] }

/-- Sample row: p1 after the failure cascade with reason boom. -/
def samplePaymentFailed : Payment :=
  { samplePaymentBatched with
    status := PaymentStatus.failed,
    failure_reason := some "boom" }

/-- Sample row: p1 as freshly received, not yet batched. -/
def samplePaymentReceived : Payment :=
  { samplePaymentBatched with
    status := PaymentStatus.received,
    payment_batch_id := none }

/-- Sample row: batch b1 with retry_count already at 9. -/
def sampleBatchRetry9 : PaymentBatch :=
  { sampleBatchAwaitingBroadcast with retry_count := 9 }

/-- Sample store: payment p1 inside batch b1 whose retry_count is 9. -/
def sampleDbRetry9 : DbState :=
  { payments := [samplePaymentBatched], batches := [sampleBatchRetry9] }

/-- Sample store reached by creating an empty batch b1 in the empty store. -/
def sampleCreatedState : DbState :=
  PaymentBatch.create_with_payments { payments := [], batches := [] }
    "b1" "alice" "k1" []

/-- The batch row inserted by the creation above. -/
def sampleCreatedBatch : PaymentBatch :=
  { id := "b1", account_name := "alice",
    status := PaymentBatchStatus.pendingBatching, pr_idempotency_key := "k1",
    unsigned_tx_json := none, signed_tx_json := none, error_message := none,
    retry_count := 0, mined_height := none, mined_header_hash := none,
    mined_timestamp := none }

/-! ## General lemmas about the store operations -/

lemma applyBatchUpdate_id (u : PaymentBatchUpdate) (inc : Bool) (b : PaymentBatch) :
    (applyBatchUpdate u inc b).id = b.id := rfl

lemma applyBatchUpdate_retry_false (u : PaymentBatchUpdate) (b : PaymentBatch) :
    (applyBatchUpdate u false b).retry_count = b.retry_count := rfl

lemma applyBatchUpdate_default_true (b : PaymentBatch) :
    applyBatchUpdate {} true b = { b with retry_count := b.retry_count + 1 } := rfl

lemma update_batch_batches (s : DbState) (batch_id : String) (u : PaymentBatchUpdate)
    (inc : Bool) :
    (PaymentBatch.update_payment_batch_status s batch_id u inc).batches =
      s.batches.map fun b => if b.id = batch_id then applyBatchUpdate u inc b else b := rfl

lemma update_batch_payments (s : DbState) (batch_id : String) (u : PaymentBatchUpdate)
    (inc : Bool) :
    (PaymentBatch.update_payment_batch_status s batch_id u inc).payments = s.payments := rfl

lemma fail_payments_batches (s : DbState) (batch_id reason : String) :
    (Payment.fail_payments_in_batch s batch_id reason).batches = s.batches := rfl

lemma fail_payments_payments (s : DbState) (batch_id reason : String) :
    (Payment.fail_payments_in_batch s batch_id reason).payments =
      s.payments.map fun p =>
        if p.payment_batch_id = some batch_id then
          { p with status := PaymentStatus.failed, failure_reason := some reason }
        else p := rfl

/-! ## C1 -/

/-- C1: refuted on the code.  The generic bulk update
Payment::update_payment_status always writes the payment_batch_id column,
and update_payments_to_confirmed passes None for it, so confirming the
BATCHED payment p1 of batch b1 leaves it with status CONFIRMED and
payment_batch_id NULL, violating the claimed invariant that a payment not
in RECEIVED has a non-null payment_batch_id. -/
theorem bulk_confirm_nulls_payment_batch_id :
    (Payment.update_payments_to_confirmed sampleDb ["p1"]).payments =
      [{ samplePaymentBatched with
          status := PaymentStatus.confirmed,
          payment_batch_id := none }] ∧
    ({ samplePaymentBatched with
        status := PaymentStatus.confirmed,
        payment_batch_id := none } : Payment).status ≠ PaymentStatus.received ∧
    ({ samplePaymentBatched with
        status := PaymentStatus.confirmed,
        payment_batch_id := none } : Payment).payment_batch_id = none := by
  decide

/-! ## C2 -/

/-- C2: update_to_failed runs one transaction whose two statements set the
batch row to FAILED with the reason as error_message and set every payment
of the batch to FAILED with the reason as failure_reason; if either
statement errors the transaction rolls back and nothing is persisted. -/
theorem update_to_failed_atomic_cascade (s : DbState) (batch_id msg : String)
    (e1 e2 : Bool) :
    (PaymentBatch.update_to_failed_tx false false s batch_id msg =
      Except.ok (PaymentBatch.update_to_failed s batch_id msg)) ∧
    (e1 = true ∨ e2 = true →
      persistedState s (PaymentBatch.update_to_failed_tx e1 e2 s batch_id msg) = s) ∧
    (∀ b ∈ (PaymentBatch.update_to_failed s batch_id msg).batches, b.id = batch_id →
      b.status = PaymentBatchStatus.failed ∧ b.error_message = some msg) ∧
    (∀ p ∈ (PaymentBatch.update_to_failed s batch_id msg).payments,
      p.payment_batch_id = some batch_id →
      p.status = PaymentStatus.failed ∧ p.failure_reason = some msg) := by
  refine ⟨rfl, ?_, ?_, ?_⟩
  · intro h
    cases e1
    · cases e2
      · simp at h
      · rfl
    · rfl
  · intro b hb hid
    have hb2 : b ∈ (PaymentBatch.update_payment_batch_status s batch_id
        { status := some PaymentBatchStatus.failed,
          error_message := some msg } false).batches := hb
    rw [update_batch_batches] at hb2
    rcases List.mem_map.1 hb2 with ⟨b0, hb0, rfl⟩
    by_cases hcase : b0.id = batch_id
    · simp [hcase, applyBatchUpdate]
    · rw [if_neg hcase] at hid ⊢
      exact absurd hid hcase
  · intro p hp hpb
    have hp2 : p ∈ ((PaymentBatch.update_payment_batch_status s batch_id
        { status := some PaymentBatchStatus.failed,
          error_message := some msg } false).payments.map fun q =>
          if q.payment_batch_id = some batch_id then
            { q with status := PaymentStatus.failed, failure_reason := some msg }
          else q) := hp
    rw [update_batch_payments] at hp2
    rcases List.mem_map.1 hp2 with ⟨p0, hp0, rfl⟩
    by_cases hcase : p0.payment_batch_id = some batch_id
    · simp [hcase]
    · rw [if_neg hcase] at hpb ⊢
      exact absurd hpb hcase

/-- Witness for C2 on a concrete store: a rolled-back transaction leaves
the store unchanged, and the committed cascade fails member payment p1. -/
theorem update_to_failed_atomic_cascade_witness :
    persistedState sampleDb
        (PaymentBatch.update_to_failed_tx true false sampleDb "b1" "boom") = sampleDb ∧
    (samplePaymentFailed.status = PaymentStatus.failed ∧
      samplePaymentFailed.failure_reason = some "boom") := by
  constructor
  · exact (update_to_failed_atomic_cascade sampleDb "b1" "boom" true false).2.1
      (Or.inl rfl)
  · exact (update_to_failed_atomic_cascade sampleDb "b1" "boom" true false).2.2.2
      samplePaymentFailed (by decide) (by decide)

/-! ## Membership lemmas for the row-update operations -/

lemma mem_update_batches_of_mem (s : DbState) (batch_id : String)
    (u : PaymentBatchUpdate) (inc : Bool) (b0 : PaymentBatch)
    (hb0 : b0 ∈ s.batches) (hid : b0.id = batch_id) :
    applyBatchUpdate u inc b0 ∈
      (PaymentBatch.update_payment_batch_status s batch_id u inc).batches := by
  refine List.mem_map.2 ⟨b0, hb0, ?_⟩
  show (if b0.id = batch_id then applyBatchUpdate u inc b0 else b0) =
    applyBatchUpdate u inc b0
  rw [if_pos hid]

lemma mem_update_batches_of_ne (s : DbState) (batch_id : String)
    (u : PaymentBatchUpdate) (inc : Bool) (b0 : PaymentBatch)
    (hb0 : b0 ∈ s.batches) (hid : b0.id ≠ batch_id) :
    b0 ∈ (PaymentBatch.update_payment_batch_status s batch_id u inc).batches := by
  refine List.mem_map.2 ⟨b0, hb0, ?_⟩
  show (if b0.id = batch_id then applyBatchUpdate u inc b0 else b0) = b0
  rw [if_neg hid]

lemma mem_fail_payments_of_mem (s : DbState) (batch_id reason : String) (p : Payment)
    (hp : p ∈ s.payments) (hpb : p.payment_batch_id = some batch_id) :
    { p with status := PaymentStatus.failed, failure_reason := some reason } ∈
      (Payment.fail_payments_in_batch s batch_id reason).payments := by
  refine List.mem_map.2 ⟨p, hp, ?_⟩
  show (if p.payment_batch_id = some batch_id then
      { p with status := PaymentStatus.failed, failure_reason := some reason }
    else p) =
    { p with status := PaymentStatus.failed, failure_reason := some reason }
  rw [if_pos hpb]

lemma update_to_failed_batch_mem (s : DbState) (batch_id msg : String)
    (b0 : PaymentBatch) (hb0 : b0 ∈ s.batches) (hid : b0.id = batch_id) :
    { b0 with status := PaymentBatchStatus.failed, error_message := some msg } ∈
      (PaymentBatch.update_to_failed s batch_id msg).batches :=
  mem_update_batches_of_mem s batch_id
    { status := some PaymentBatchStatus.failed, error_message := some msg } false b0 hb0 hid

lemma update_to_failed_payment_mem (s : DbState) (batch_id msg : String)
    (p : Payment) (hp : p ∈ s.payments) (hpb : p.payment_batch_id = some batch_id) :
    { p with status := PaymentStatus.failed, failure_reason := some msg } ∈
      (PaymentBatch.update_to_failed s batch_id msg).payments :=
  mem_fail_payments_of_mem
    (PaymentBatch.update_payment_batch_status s batch_id
      { status := some PaymentBatchStatus.failed, error_message := some msg } false)
    batch_id msg p hp hpb

/-! ## C3 -/

/-- C3: refuted on the code.  Payment::fail_payments_in_batch has no
condition on the current status: failing batch b1 while its member payment
p1 is CONFIRMED overwrites p1 to FAILED instead of keeping it CONFIRMED. -/
theorem fail_batch_overwrites_confirmed_member :
    samplePaymentConfirmed.status = PaymentStatus.confirmed ∧
    (PaymentBatch.update_to_failed
        { payments := [samplePaymentConfirmed], batches := [sampleBatchAwaitingBroadcast] }
        "b1" "boom").payments =
      [{ samplePaymentConfirmed with
          status := PaymentStatus.failed,
          failure_reason := some "boom" }] := by
  decide

/-- C3 amended: when a batch is failed, via update_to_failed or via the
terminal branch of increment_retry_count (which runs the same two
statements), every member payment regardless of its current status,
CONFIRMED included, becomes FAILED with the batch's failure reason, and
payments outside the batch are untouched. -/
theorem fail_batch_fails_all_members (s : DbState) (batch_id reason : String)
    (batch : PaymentBatch) :
    (∀ p ∈ s.payments,
      (p.payment_batch_id = some batch_id →
        { p with status := PaymentStatus.failed, failure_reason := some reason } ∈
          (PaymentBatch.update_to_failed s batch_id reason).payments) ∧
      (p.payment_batch_id ≠ some batch_id →
        p ∈ (PaymentBatch.update_to_failed s batch_id reason).payments)) ∧
    (PaymentBatch.find_by_id s batch_id = some batch →
      batch.retry_count + 1 ≥ MAX_RETRIES →
      PaymentBatch.increment_retry_count s batch_id reason =
        Except.ok (PaymentBatch.update_to_failed s batch_id reason)) := by
  constructor
  · intro p hp
    constructor
    · intro hpb
      exact update_to_failed_payment_mem s batch_id reason p hp hpb
    · intro hpb
      refine List.mem_map.2 ⟨p, hp, ?_⟩
      show (if p.payment_batch_id = some batch_id then
          { p with status := PaymentStatus.failed, failure_reason := some reason }
        else p) = p
      rw [if_neg hpb]
  · intro hfind hge
    simp only [PaymentBatch.increment_retry_count, hfind]
    rw [if_pos hge]

/-- Witness for C3 on concrete stores: the cascade fails the member
payment, and at retry_count 9 the retry path takes the fail branch. -/
theorem fail_batch_fails_all_members_witness :
    (samplePaymentFailed ∈
      (PaymentBatch.update_to_failed sampleDbRetry9 "b1" "boom").payments) ∧
    PaymentBatch.increment_retry_count sampleDbRetry9 "b1" "boom" =
      Except.ok (PaymentBatch.update_to_failed sampleDbRetry9 "b1" "boom") := by
  constructor
  · exact ((fail_batch_fails_all_members sampleDbRetry9 "b1" "boom"
      sampleBatchRetry9).1 samplePaymentBatched (by decide)).1 (by decide)
  · exact (fail_batch_fails_all_members sampleDbRetry9 "b1" "boom"
      sampleBatchRetry9).2 (by decide) (by decide)

/-! ## C6 -/

/-- C6: refuted on the code.  The generated UPDATE of
update_payment_batch_status is keyed on the batch id only; applying
update_to_signing_in_progress to batch b1 while it is CONFIRMED (not the
expected source status AWAITING_SIGNATURE) still rewrites the row. -/
theorem status_update_not_keyed_on_source_status :
    sampleBatchConfirmed.status = PaymentBatchStatus.confirmed ∧
    (PaymentBatch.update_to_signing_in_progress
        { payments := [], batches := [sampleBatchConfirmed] } "b1").batches =
      [{ sampleBatchConfirmed with
          status := PaymentBatchStatus.signingInProgress }] := by
  decide

/-- C6 amended: every batch status update performed through the store is
keyed solely on the batch id: the row with that id receives the update
whatever its current status is, every other row is unchanged, and the
payments table is untouched; the ordered traversal of statuses is
maintained only by the callers selecting batches via find_by_status. -/
theorem status_update_keyed_on_id_only (s : DbState) (batch_id : String)
    (u : PaymentBatchUpdate) (inc : Bool) :
    (PaymentBatch.update_payment_batch_status s batch_id u inc).payments =
      s.payments ∧
    (∀ b ∈ s.batches, b.id = batch_id →
      applyBatchUpdate u inc b ∈
        (PaymentBatch.update_payment_batch_status s batch_id u inc).batches) ∧
    (∀ b ∈ s.batches, b.id ≠ batch_id →
      b ∈ (PaymentBatch.update_payment_batch_status s batch_id u inc).batches) ∧
    (∀ b2 ∈ (PaymentBatch.update_to_signing_in_progress s batch_id).batches,
      b2.id = batch_id → b2.status = PaymentBatchStatus.signingInProgress) := by
  refine ⟨rfl, ?_, ?_, ?_⟩
  · intro b hb hid
    exact mem_update_batches_of_mem s batch_id u inc b hb hid
  · intro b hb hid
    exact mem_update_batches_of_ne s batch_id u inc b hb hid
  · intro b2 hb2 hid
    rcases List.mem_map.1 hb2 with ⟨b0, hb0, rfl⟩
    by_cases hcase : b0.id = batch_id
    · show (if b0.id = batch_id then
          applyBatchUpdate { status := some PaymentBatchStatus.signingInProgress }
            false b0
        else b0).status = PaymentBatchStatus.signingInProgress
      rw [if_pos hcase]
      rfl
    · have : (if b0.id = batch_id then
          applyBatchUpdate { status := some PaymentBatchStatus.signingInProgress }
            false b0
        else b0) = b0 := if_neg hcase
      rw [this] at hid
      exact absurd hid hcase

/-- Witness for C6: the CONFIRMED batch b1 receives the
SIGNING_IN_PROGRESS update even though its status is not the expected
predecessor. -/
theorem status_update_keyed_on_id_only_witness :
    applyBatchUpdate { status := some PaymentBatchStatus.signingInProgress } false
        sampleBatchConfirmed ∈
      (PaymentBatch.update_payment_batch_status
        { payments := [], batches := [sampleBatchConfirmed] } "b1"
        { status := some PaymentBatchStatus.signingInProgress } false).batches := by
  exact (status_update_keyed_on_id_only
    { payments := [], batches := [sampleBatchConfirmed] } "b1"
    { status := some PaymentBatchStatus.signingInProgress } false).2.1
    sampleBatchConfirmed (by decide) (by decide)

/-! ## C7 -/

/-- C7: refuted on the code.  create_with_payments has no condition on the
listed payments' current status: listing the CONFIRMED payment p1 does not
fail; the batch row is inserted and p1 is still rewritten to BATCHED. -/
theorem create_with_payments_accepts_non_received :
    samplePaymentConfirmed.status ≠ PaymentStatus.received ∧
    (PaymentBatch.create_with_payments
        { payments := [samplePaymentConfirmed], batches := [] } "b2" "alice" "k2"
        ["p1"]).batches.length = 1 ∧
    (PaymentBatch.create_with_payments
        { payments := [samplePaymentConfirmed], batches := [] } "b2" "alice" "k2"
        ["p1"]).payments =
      [{ samplePaymentConfirmed with
          status := PaymentStatus.batched,
          payment_batch_id := some "b2" }] := by
  decide

/-- C7 amended: for every account name, idempotency key and non-empty list
of payment ids, create_with_payments performs one transaction that appends
a batch with status PENDING_BATCHING and retry_count 0 and rewrites each
listed payment to BATCHED with the new batch id, regardless of the
payments' current status; it does not fail when a listed payment is not
RECEIVED, and unlisted payments are unchanged. -/
theorem create_with_payments_effect (s : DbState)
    (batch_id account_name pr_idempotency_key : String)
    (payment_ids : List String) (_hne : payment_ids ≠ []) :
    (∃ nb : PaymentBatch,
      (PaymentBatch.create_with_payments s batch_id account_name
        pr_idempotency_key payment_ids).batches = s.batches ++ [nb] ∧
      nb.id = batch_id ∧ nb.account_name = account_name ∧
      nb.pr_idempotency_key = pr_idempotency_key ∧
      nb.status = PaymentBatchStatus.pendingBatching ∧ nb.retry_count = 0) ∧
    (∀ p ∈ s.payments,
      (p.id ∈ payment_ids →
        { p with
          status := PaymentStatus.batched,
          payment_batch_id := some batch_id } ∈
          (PaymentBatch.create_with_payments s batch_id account_name
            pr_idempotency_key payment_ids).payments) ∧
      (p.id ∉ payment_ids →
        p ∈ (PaymentBatch.create_with_payments s batch_id account_name
          pr_idempotency_key payment_ids).payments)) := by
  refine ⟨⟨_, rfl, rfl, rfl, rfl, rfl, rfl⟩, ?_⟩
  intro p hp
  constructor
  · intro hin
    refine List.mem_map.2 ⟨p, hp, ?_⟩
    show (if p.id ∈ payment_ids then
        { p with
          status := PaymentStatus.batched,
          payment_batch_id := some batch_id }
      else p) =
      { p with
        status := PaymentStatus.batched,
        payment_batch_id := some batch_id }
    rw [if_pos hin]
  · intro hnin
    refine List.mem_map.2 ⟨p, hp, ?_⟩
    show (if p.id ∈ payment_ids then
        { p with
          status := PaymentStatus.batched,
          payment_batch_id := some batch_id }
      else p) = p
    rw [if_neg hnin]

/-- Witness for C7: batching the received payment p1 into fresh batch b2. -/
theorem create_with_payments_effect_witness :
    { samplePaymentReceived with
        status := PaymentStatus.batched,
        payment_batch_id := some "b2" } ∈
      (PaymentBatch.create_with_payments
        { payments := [samplePaymentReceived], batches := [] } "b2" "alice" "k2"
        ["p1"]).payments := by
  exact ((create_with_payments_effect
    { payments := [samplePaymentReceived], batches := [] } "b2" "alice" "k2"
    ["p1"] (by decide)).2 samplePaymentReceived (by decide)).1 (by decide)

/-! ## Reduction lemmas for the signer worker -/

lemma process_one_batch_no_unsigned (s : DbState) (b : PaymentBatch)
    (cli : CliResult) (out_contents : String) (hu : b.unsigned_tx_json = none) :
    process_one_batch s b cli out_contents =
      (PaymentBatch.update_to_signing_in_progress s b.id,
        some ("Batch " ++ b.id ++ " has no unsigned_tx_json")) := by
  unfold process_one_batch
  rw [hu]

lemma process_one_batch_exit_ok (s : DbState) (b : PaymentBatch)
    (u stderr_text out_contents : String) (hu : b.unsigned_tx_json = some u) :
    process_one_batch s b (CliResult.exited true stderr_text) out_contents =
      (PaymentBatch.update_to_awaiting_broadcast
        (PaymentBatch.update_to_signing_in_progress s b.id) b.id out_contents,
        none) := by
  unfold process_one_batch
  rw [hu]

lemma process_one_batch_exit_err (s : DbState) (b : PaymentBatch)
    (u stderr_text out_contents : String) (hu : b.unsigned_tx_json = some u) :
    process_one_batch s b (CliResult.exited false stderr_text) out_contents =
      (PaymentBatch.update_to_failed
        (PaymentBatch.update_to_signing_in_progress s b.id) b.id stderr_text,
        none) := by
  unfold process_one_batch
  rw [hu]

lemma process_one_batch_spawn_err (s : DbState) (b : PaymentBatch)
    (u e out_contents : String) (hu : b.unsigned_tx_json = some u) :
    process_one_batch s b (CliResult.spawnError e) out_contents =
      (PaymentBatch.update_to_failed
        (PaymentBatch.update_to_signing_in_progress s b.id) b.id
        ("CLI execution error: " ++ e),
        none) := by
  unfold process_one_batch
  rw [hu]

/-! ## C8 -/

/-- C8: for a batch the signer processes (which carries an unsigned
transaction), exit code 0 moves the batch row to AWAITING_BROADCAST with
signed_tx_json set to the contents of the CLI output file, while a
non-zero exit fails the batch with the CLI stderr as error_message and
fails every member payment with that stderr as failure_reason. -/
theorem signer_exit_code_dispatch (s : DbState) (b : PaymentBatch)
    (u out_contents stderr_text : String) (hu : b.unsigned_tx_json = some u) :
    (∀ b0 ∈ s.batches, b0.id = b.id →
      { b0 with
        status := PaymentBatchStatus.awaitingBroadcast,
        signed_tx_json := some out_contents } ∈
        (process_one_batch s b (CliResult.exited true stderr_text)
          out_contents).1.batches) ∧
    (∀ b0 ∈ s.batches, b0.id = b.id →
      { b0 with
        status := PaymentBatchStatus.failed,
        error_message := some stderr_text } ∈
        (process_one_batch s b (CliResult.exited false stderr_text)
          out_contents).1.batches) ∧
    (∀ p ∈ s.payments, p.payment_batch_id = some b.id →
      { p with
        status := PaymentStatus.failed,
        failure_reason := some stderr_text } ∈
        (process_one_batch s b (CliResult.exited false stderr_text)
          out_contents).1.payments) := by
  refine ⟨?_, ?_, ?_⟩
  · intro b0 hb0 hid
    rw [process_one_batch_exit_ok s b u stderr_text out_contents hu]
    have h1 : ({ b0 with status := PaymentBatchStatus.signingInProgress }
        : PaymentBatch) ∈
        (PaymentBatch.update_to_signing_in_progress s b.id).batches :=
      mem_update_batches_of_mem s b.id
        { status := some PaymentBatchStatus.signingInProgress } false b0 hb0 hid
    exact mem_update_batches_of_mem
      (PaymentBatch.update_to_signing_in_progress s b.id) b.id
      { status := some PaymentBatchStatus.awaitingBroadcast,
        signed_tx_json := some out_contents } false
      { b0 with status := PaymentBatchStatus.signingInProgress } h1 hid
  · intro b0 hb0 hid
    rw [process_one_batch_exit_err s b u stderr_text out_contents hu]
    have h1 : ({ b0 with status := PaymentBatchStatus.signingInProgress }
        : PaymentBatch) ∈
        (PaymentBatch.update_to_signing_in_progress s b.id).batches :=
      mem_update_batches_of_mem s b.id
        { status := some PaymentBatchStatus.signingInProgress } false b0 hb0 hid
    exact update_to_failed_batch_mem
      (PaymentBatch.update_to_signing_in_progress s b.id) b.id stderr_text
      { b0 with status := PaymentBatchStatus.signingInProgress } h1 hid
  · intro p hp hpb
    rw [process_one_batch_exit_err s b u stderr_text out_contents hu]
    exact update_to_failed_payment_mem
      (PaymentBatch.update_to_signing_in_progress s b.id) b.id stderr_text p hp hpb

/-- Witness for C8: on exit 0 batch b1 reaches AWAITING_BROADCAST with the
signed output; on non-zero exit it is FAILED with stderr bad key and its
member payment p1 is FAILED with the same reason. -/
theorem signer_exit_code_dispatch_witness :
    ({ sampleBatchAwaitingSignature with
        status := PaymentBatchStatus.awaitingBroadcast,
        signed_tx_json := some "S2" } ∈
      (process_one_batch
        { payments := [samplePaymentBatched], batches := [sampleBatchAwaitingSignature] }
        sampleBatchAwaitingSignature (CliResult.exited true "") "S2").1.batches) ∧
    ({ samplePaymentBatched with
        status := PaymentStatus.failed,
        failure_reason := some "bad key" } ∈
      (process_one_batch
        { payments := [samplePaymentBatched], batches := [sampleBatchAwaitingSignature] }
        sampleBatchAwaitingSignature (CliResult.exited false "bad key") "").1.payments) := by
  constructor
  · exact (signer_exit_code_dispatch
      { payments := [samplePaymentBatched], batches := [sampleBatchAwaitingSignature] }
      sampleBatchAwaitingSignature "U" "S2" "" (by decide)).1
      sampleBatchAwaitingSignature (by decide) (by decide)
  · exact (signer_exit_code_dispatch
      { payments := [samplePaymentBatched], batches := [sampleBatchAwaitingSignature] }
      sampleBatchAwaitingSignature "U" "" "bad key" (by decide)).2.2
      samplePaymentBatched (by decide) (by decide)

/-! ## C9 -/

/-- C9: refuted on the code.  When the wallet CLI cannot be spawned, the
signer calls update_to_failed (transaction_signer.rs lines 85 to 92), not
increment_retry_count: the first spawn failure leaves batch b1 FAILED with
retry_count still 0, so the batch is not eligible for further attempts. -/
theorem spawn_failure_fails_batch_immediately :
    (process_one_batch
        { payments := [], batches := [sampleBatchAwaitingSignature] }
        sampleBatchAwaitingSignature (CliResult.spawnError "nofile") "").1.batches =
      [{ sampleBatchAwaitingSignature with
          status := PaymentBatchStatus.failed,
          error_message := some "CLI execution error: nofile" }] := by
  decide

/-- C9 amended: subprocess spawn failures in the TransactionSigner are
treated as irrecoverable: the batch is failed immediately through
update_to_failed with error message CLI execution error followed by the
spawn error, the failure cascades to the member payments with the same
reason, and retry_count is left unchanged. -/
theorem spawn_failure_is_irrecoverable (s : DbState) (b : PaymentBatch)
    (u e out_contents : String) (hu : b.unsigned_tx_json = some u) :
    ((process_one_batch s b (CliResult.spawnError e) out_contents).2 = none) ∧
    (∀ b0 ∈ s.batches, b0.id = b.id →
      { b0 with
        status := PaymentBatchStatus.failed,
        error_message := some ("CLI execution error: " ++ e) } ∈
        (process_one_batch s b (CliResult.spawnError e) out_contents).1.batches) ∧
    (∀ p ∈ s.payments, p.payment_batch_id = some b.id →
      { p with
        status := PaymentStatus.failed,
        failure_reason := some ("CLI execution error: " ++ e) } ∈
        (process_one_batch s b (CliResult.spawnError e) out_contents).1.payments) := by
  refine ⟨?_, ?_, ?_⟩
  · rw [process_one_batch_spawn_err s b u e out_contents hu]
  · intro b0 hb0 hid
    rw [process_one_batch_spawn_err s b u e out_contents hu]
    have h1 : ({ b0 with status := PaymentBatchStatus.signingInProgress }
        : PaymentBatch) ∈
        (PaymentBatch.update_to_signing_in_progress s b.id).batches :=
      mem_update_batches_of_mem s b.id
        { status := some PaymentBatchStatus.signingInProgress } false b0 hb0 hid
    exact update_to_failed_batch_mem
      (PaymentBatch.update_to_signing_in_progress s b.id) b.id
      ("CLI execution error: " ++ e)
      { b0 with status := PaymentBatchStatus.signingInProgress } h1 hid
  · intro p hp hpb
    rw [process_one_batch_spawn_err s b u e out_contents hu]
    exact update_to_failed_payment_mem
      (PaymentBatch.update_to_signing_in_progress s b.id) b.id
      ("CLI execution error: " ++ e) p hp hpb

/-- Witness for C9 amended: the spawn error nofile fails batch b1 and its
member payment p1 with the composed reason. -/
theorem spawn_failure_is_irrecoverable_witness :
    { samplePaymentBatched with
        status := PaymentStatus.failed,
        failure_reason := some "CLI execution error: nofile" } ∈
      (process_one_batch
        { payments := [samplePaymentBatched], batches := [sampleBatchAwaitingSignature] }
        sampleBatchAwaitingSignature (CliResult.spawnError "nofile") "").1.payments := by
  exact (spawn_failure_is_irrecoverable
    { payments := [samplePaymentBatched], batches := [sampleBatchAwaitingSignature] }
    sampleBatchAwaitingSignature "U" "nofile" "" (by decide)).2.2
    samplePaymentBatched (by decide) (by decide)

/-! ## C10 -/

lemma signLoop_ok_append (env : String → CliResult × String)
    (pre rest : List PaymentBatch) (s s2 : DbState)
    (h : signLoop env pre s = (s2, none)) :
    signLoop env (pre ++ rest) s = signLoop env rest s2 := by
  induction pre generalizing s with
  | nil =>
    simp only [signLoop] at h
    rw [List.nil_append]
    have h1 : s = s2 := congrArg Prod.fst h
    rw [h1]
  | cons a t ih =>
    rw [List.cons_append]
    simp only [signLoop] at h ⊢
    cases hstep : (process_one_batch s a (env a.id).1 (env a.id).2).2 with
    | none =>
      rw [hstep] at h
      exact ih _ h
    | some e =>
      rw [hstep] at h
      simp only [Prod.mk.injEq] at h
      exact absurd h.2 (by simp)

/-- C10: if a batch returned by the AWAITING_SIGNATURE query has no
unsigned_tx_json, the signer first moves it to SIGNING_IN_PROGRESS, then
aborts the whole tick with the anyhow error: the batch is neither failed
nor restored (only its status changed, to SIGNING_IN_PROGRESS), every
other row of the state reached so far is untouched, and the batches after
it in the tick's list are not processed. -/
theorem missing_unsigned_tx_leaves_signing_in_progress
    (env : String → CliResult × String) (s s2 : DbState)
    (pre post : List PaymentBatch) (b : PaymentBatch)
    (hfilter : PaymentBatch.find_by_status s PaymentBatchStatus.awaitingSignature =
      pre ++ b :: post)
    (hpre : signLoop env pre s = (s2, none))
    (hb : b.unsigned_tx_json = none) :
    process_transactions_to_sign env s =
      (PaymentBatch.update_to_signing_in_progress s2 b.id,
        some ("Batch " ++ b.id ++ " has no unsigned_tx_json")) ∧
    (∀ b0 ∈ s2.batches, b0.id = b.id →
      { b0 with status := PaymentBatchStatus.signingInProgress } ∈
        (PaymentBatch.update_to_signing_in_progress s2 b.id).batches) ∧
    (∀ b0 ∈ s2.batches, b0.id ≠ b.id →
      b0 ∈ (PaymentBatch.update_to_signing_in_progress s2 b.id).batches) := by
  refine ⟨?_, ?_, ?_⟩
  · unfold process_transactions_to_sign
    rw [hfilter, signLoop_ok_append env pre (b :: post) s s2 hpre]
    have hred := process_one_batch_no_unsigned s2 b (env b.id).1 (env b.id).2 hb
    simp only [signLoop, hred]
  · intro b0 hb0 hid
    exact mem_update_batches_of_mem s2 b.id
      { status := some PaymentBatchStatus.signingInProgress } false b0 hb0 hid
  · intro b0 hb0 hid
    exact mem_update_batches_of_ne s2 b.id
      { status := some PaymentBatchStatus.signingInProgress } false b0 hb0 hid

/-- Witness for C10: one batch in AWAITING_SIGNATURE with no
unsigned_tx_json; the tick ends in the error and the batch is left in
SIGNING_IN_PROGRESS. -/
theorem missing_unsigned_tx_leaves_signing_in_progress_witness :
    process_transactions_to_sign (fun _ => (CliResult.exited true "", "S"))
        { payments := [], batches := [sampleBatchNoUnsigned] } =
      (PaymentBatch.update_to_signing_in_progress
        { payments := [], batches := [sampleBatchNoUnsigned] } "b1",
        some ("Batch " ++ "b1" ++ " has no unsigned_tx_json")) := by
  exact (missing_unsigned_tx_leaves_signing_in_progress
    (fun _ => (CliResult.exited true "", "S"))
    { payments := [], batches := [sampleBatchNoUnsigned] }
    { payments := [], batches := [sampleBatchNoUnsigned] }
    [] [] sampleBatchNoUnsigned (by decide) rfl rfl).1

/-! ## C4 -/

lemma find_by_id_singleton (payments : List Payment) (b : PaymentBatch)
    (bid : String) (hbid : b.id = bid) :
    PaymentBatch.find_by_id { payments := payments, batches := [b] } bid = some b := by
  simp [PaymentBatch.find_by_id, hbid]

lemma increment_retry_singleton (payments : List Payment) (b : PaymentBatch)
    (bid msg : String) (hbid : b.id = bid)
    (hlt : b.retry_count + 1 < MAX_RETRIES) :
    PaymentBatch.increment_retry_count
        { payments := payments, batches := [b] } bid msg =
      Except.ok
        { payments := payments,
          batches := [{ b with retry_count := b.retry_count + 1 }] } := by
  simp only [PaymentBatch.increment_retry_count,
    find_by_id_singleton payments b bid hbid]
  rw [if_neg (by omega)]
  show Except.ok (PaymentBatch.update_payment_batch_status
    { payments := payments, batches := [b] } bid {} true) = _
  unfold PaymentBatch.update_payment_batch_status
  rw [List.map_cons, List.map_nil, if_pos hbid]
  rfl

lemma increment_retry_singleton_fail (payments : List Payment) (b : PaymentBatch)
    (bid msg : String) (hbid : b.id = bid)
    (hge : b.retry_count + 1 ≥ MAX_RETRIES) :
    PaymentBatch.increment_retry_count
        { payments := payments, batches := [b] } bid msg =
      Except.ok (PaymentBatch.update_to_failed
        { payments := payments, batches := [b] } bid msg) := by
  simp only [PaymentBatch.increment_retry_count,
    find_by_id_singleton payments b bid hbid]
  rw [if_pos hge]

lemma apply_transient_errors_append (s : DbState) (batch_id : String)
    (xs ys : List String) :
    apply_transient_errors s batch_id (xs ++ ys) =
      apply_transient_errors (apply_transient_errors s batch_id xs) batch_id ys := by
  induction xs generalizing s with
  | nil => rfl
  | cons a t ih =>
    rw [List.cons_append]
    simp only [apply_transient_errors]
    exact ih _

lemma apply_transient_errors_increments (rs : List String)
    (payments : List Payment) (b : PaymentBatch) (bid : String)
    (hbid : b.id = bid)
    (hle : b.retry_count + (rs.length : Int) ≤ MAX_RETRIES - 1) :
    apply_transient_errors { payments := payments, batches := [b] } bid rs =
      { payments := payments,
        batches := [{ b with retry_count := b.retry_count + (rs.length : Int) }] } := by
  induction rs generalizing b with
  | nil =>
    simp only [apply_transient_errors, List.length_nil, Nat.cast_zero, add_zero]
  | cons r rs ih =>
    rw [List.length_cons] at hle
    push_cast at hle
    have hstep := increment_retry_singleton payments b bid r hbid (by omega)
    simp only [apply_transient_errors]
    rw [hstep]
    simp only [persistedState]
    have h2 := ih { b with retry_count := b.retry_count + 1 } hbid (by
      show b.retry_count + 1 + (rs.length : Int) ≤ MAX_RETRIES - 1
      omega)
    refine h2.trans ?_
    show ({ payments := payments,
            batches :=
              [{ b with retry_count := b.retry_count + 1 + (rs.length : Int) }] }
          : DbState) = _
    rw [List.length_cons]
    push_cast
    rw [show b.retry_count + 1 + (rs.length : Int) =
      b.retry_count + ((rs.length : Int) + 1) from by omega]

lemma update_to_failed_singleton (payments : List Payment) (b : PaymentBatch)
    (bid msg : String) (hbid : b.id = bid) :
    PaymentBatch.update_to_failed { payments := payments, batches := [b] } bid msg =
      { payments := payments.map fun p =>
          if p.payment_batch_id = some bid then
            { p with status := PaymentStatus.failed, failure_reason := some msg }
          else p,
        batches := [{ b with
          status := PaymentBatchStatus.failed,
          error_message := some msg }] } := by
  unfold PaymentBatch.update_to_failed Payment.fail_payments_in_batch
    PaymentBatch.update_payment_batch_status
  rw [List.map_cons, List.map_nil, if_pos hbid]
  rfl

/-- C4: increment_retry_count reads the stored batch; if retry_count + 1
has reached MAX_RETRIES (10) it runs exactly the two statements of
update_to_failed (batch FAILED with the reason as error_message, member
payments FAILED with the same reason), otherwise it only bumps retry_count
by one; hence for a batch starting at retry_count 0, nine transient errors
leave it at retry_count 9 and the tenth makes it FAILED with the last
transient reason, with its member payments FAILED for that reason. -/
theorem increment_retry_count_spec :
    (∀ (s : DbState) (batch_id msg : String) (batch : PaymentBatch),
      PaymentBatch.find_by_id s batch_id = some batch →
      (batch.retry_count + 1 ≥ MAX_RETRIES →
        PaymentBatch.increment_retry_count s batch_id msg =
          Except.ok (PaymentBatch.update_to_failed s batch_id msg)) ∧
      (batch.retry_count + 1 < MAX_RETRIES →
        PaymentBatch.increment_retry_count s batch_id msg =
          Except.ok { s with batches := s.batches.map fun x =>
            if x.id = batch_id then { x with retry_count := x.retry_count + 1 }
            else x })) ∧
    (∀ (payments : List Payment) (b : PaymentBatch)
        (r1 r2 r3 r4 r5 r6 r7 r8 r9 r10 : String),
      b.retry_count = 0 →
      apply_transient_errors { payments := payments, batches := [b] } b.id
          [r1, r2, r3, r4, r5, r6, r7, r8, r9] =
        { payments := payments, batches := [{ b with retry_count := 9 }] } ∧
      (∀ b2 ∈ (apply_transient_errors { payments := payments, batches := [b] }
          b.id [r1, r2, r3, r4, r5, r6, r7, r8, r9, r10]).batches,
        b2.status = PaymentBatchStatus.failed ∧ b2.error_message = some r10) ∧
      (∀ p ∈ (apply_transient_errors { payments := payments, batches := [b] }
          b.id [r1, r2, r3, r4, r5, r6, r7, r8, r9, r10]).payments,
        p.payment_batch_id = some b.id →
        p.status = PaymentStatus.failed ∧ p.failure_reason = some r10)) := by
  constructor
  · intro s batch_id msg batch hfind
    constructor
    · intro hge
      simp only [PaymentBatch.increment_retry_count, hfind]
      rw [if_pos hge]
    · intro hlt
      simp only [PaymentBatch.increment_retry_count, hfind]
      rw [if_neg (by omega)]
      rfl
  · intro payments b r1 r2 r3 r4 r5 r6 r7 r8 r9 r10 hb0
    have h9 := apply_transient_errors_increments
      [r1, r2, r3, r4, r5, r6, r7, r8, r9] payments b b.id rfl
      (by rw [hb0]; norm_num [MAX_RETRIES])
    rw [hb0] at h9
    norm_num at h9
    have h10 : apply_transient_errors { payments := payments, batches := [b] } b.id
        [r1, r2, r3, r4, r5, r6, r7, r8, r9, r10] =
      PaymentBatch.update_to_failed
        { payments := payments, batches := [{ b with retry_count := 9 }] } b.id r10 := by
      have hsplit : ([r1, r2, r3, r4, r5, r6, r7, r8, r9, r10] : List String) =
          [r1, r2, r3, r4, r5, r6, r7, r8, r9] ++ [r10] := rfl
      rw [hsplit, apply_transient_errors_append, h9]
      simp only [apply_transient_errors]
      rw [increment_retry_singleton_fail payments { b with retry_count := 9 } b.id r10
        rfl (by show (9 : Int) + 1 ≥ MAX_RETRIES; norm_num [MAX_RETRIES])]
      simp only [persistedState]
    have hfail := update_to_failed_singleton payments { b with retry_count := 9 }
      b.id r10 rfl
    refine ⟨h9, ?_, ?_⟩
    · intro b2 hb2
      rw [h10, hfail] at hb2
      rcases List.mem_singleton.1 hb2 with rfl
      exact ⟨rfl, rfl⟩
    · intro p hp hpb
      rw [h10, hfail] at hp
      rcases List.mem_map.1 hp with ⟨p0, hp0, rfl⟩
      by_cases hc : p0.payment_batch_id = some b.id
      · rw [if_pos hc]
        exact ⟨rfl, rfl⟩
      · rw [if_neg hc] at hpb
        exact absurd hpb hc

/-- Witness for C4: at retry_count 9 the next transient error takes the
fail branch, and a fresh batch accumulates retry_count 9 over nine
transient errors. -/
theorem increment_retry_count_spec_witness :
    (PaymentBatch.increment_retry_count sampleDbRetry9 "b1" "boom" =
      Except.ok (PaymentBatch.update_to_failed sampleDbRetry9 "b1" "boom")) ∧
    (apply_transient_errors
        { payments := [], batches := [sampleBatchAwaitingBroadcast] }
        sampleBatchAwaitingBroadcast.id
        ["e1", "e2", "e3", "e4", "e5", "e6", "e7", "e8", "e9"] =
      { payments := [],
        batches := [{ sampleBatchAwaitingBroadcast with retry_count := 9 }] }) := by
  constructor
  · exact (increment_retry_count_spec.1 sampleDbRetry9 "b1" "boom"
      sampleBatchRetry9 (by decide)).1 (by decide)
  · exact (increment_retry_count_spec.2 [] sampleBatchAwaitingBroadcast
      "e1" "e2" "e3" "e4" "e5" "e6" "e7" "e8" "e9" "e10" rfl).1

/-! ## C5 -/

lemma map_id_of_id_preserved (f : PaymentBatch → PaymentBatch)
    (hf : ∀ b, (f b).id = b.id) (l : List PaymentBatch) :
    (l.map f).map PaymentBatch.id = l.map PaymentBatch.id := by
  induction l with
  | nil => rfl
  | cons a t ih => simp [hf, ih]

lemma update_if_id_preserved (batch_id : String) (u : PaymentBatchUpdate)
    (inc : Bool) :
    ∀ b : PaymentBatch,
      ((if b.id = batch_id then applyBatchUpdate u inc b else b) : PaymentBatch).id =
        b.id := by
  intro b
  by_cases hc : b.id = batch_id
  · rw [if_pos hc]
    rfl
  · rw [if_neg hc]

lemma inv_update_batch (s : DbState) (batch_id : String) (u : PaymentBatchUpdate)
    (h : BatchRetryInv s) :
    BatchRetryInv (PaymentBatch.update_payment_batch_status s batch_id u false) := by
  constructor
  · rw [update_batch_batches,
      map_id_of_id_preserved _ (update_if_id_preserved batch_id u false) s.batches]
    exact h.1
  · intro b2 hb2
    rw [update_batch_batches] at hb2
    rcases List.mem_map.1 hb2 with ⟨b0, hb0, rfl⟩
    by_cases hc : b0.id = batch_id
    · rw [if_pos hc]
      exact h.2 b0 hb0
    · rw [if_neg hc]
      exact h.2 b0 hb0

lemma inv_create (s : DbState) (batch_id account_name pr_idempotency_key : String)
    (payment_ids : List String) (h : BatchRetryInv s)
    (hfresh : ∀ b ∈ s.batches, b.id ≠ batch_id) :
    BatchRetryInv (PaymentBatch.create_with_payments s batch_id account_name
      pr_idempotency_key payment_ids) := by
  constructor
  · rw [show (PaymentBatch.create_with_payments s batch_id account_name
        pr_idempotency_key payment_ids).batches = s.batches ++
        [{ id := batch_id, account_name := account_name,
           status := PaymentBatchStatus.pendingBatching,
           pr_idempotency_key := pr_idempotency_key, unsigned_tx_json := none,
           signed_tx_json := none, error_message := none, retry_count := 0,
           mined_height := none, mined_header_hash := none,
           mined_timestamp := none }] from rfl]
    rw [List.map_append]
    refine List.nodup_append.2 ⟨h.1, by simp, ?_⟩
    intro a ha hmem
    rcases List.mem_map.1 ha with ⟨b0, hb0, rfl⟩
    rw [List.map_cons, List.map_nil] at hmem
    rcases List.mem_singleton.1 hmem with heq
    exact hfresh b0 hb0 heq
  · intro b2 hb2
    rcases List.mem_append.1 hb2 with h1 | h1
    · exact h.2 b2 h1
    · rcases List.mem_singleton.1 h1 with rfl
      show (0 : Int) ≤ MAX_RETRIES - 1
      norm_num [MAX_RETRIES]

lemma inv_increment (s s2 : DbState) (batch_id msg : String) (h : BatchRetryInv s)
    (heq : PaymentBatch.increment_retry_count s batch_id msg = Except.ok s2) :
    BatchRetryInv s2 := by
  unfold PaymentBatch.increment_retry_count at heq
  cases hfind : PaymentBatch.find_by_id s batch_id with
  | none =>
    simp only [hfind] at heq
    cases heq
  | some batch =>
    simp only [hfind] at heq
    by_cases hge : batch.retry_count + 1 ≥ MAX_RETRIES
    · rw [if_pos hge] at heq
      injection heq with h2
      rw [← h2]
      exact inv_update_batch s batch_id _ h
    · rw [if_neg hge] at heq
      injection heq with h2
      rw [← h2]
      constructor
      · rw [update_batch_batches,
          map_id_of_id_preserved _ (update_if_id_preserved batch_id {} true) s.batches]
        exact h.1
      · intro b2 hb2
        rw [update_batch_batches] at hb2
        rcases List.mem_map.1 hb2 with ⟨b0, hb0, rfl⟩
        by_cases hc : b0.id = batch_id
        · have hfind2 : s.batches.find? (fun x => decide (x.id = batch_id)) =
              some batch := hfind
          have hbmem : batch ∈ s.batches := List.mem_of_find?_eq_some hfind2
          have hbid := List.find?_some hfind2
          simp only [decide_eq_true_eq] at hbid
          have hb0batch : b0 = batch :=
            List.inj_on_of_nodup_map h.1 hb0 hbmem (by rw [hc, hbid])
          rw [if_pos hc]
          show b0.retry_count + 1 ≤ MAX_RETRIES - 1
          rw [hb0batch]
          omega
        · rw [if_neg hc]
          exact h.2 b0 hb0

lemma storeReachable_inv (s : DbState) (h : StoreReachable s) : BatchRetryInv s := by
  induction h with
  | init =>
    exact ⟨List.nodup_nil, by intro b hb; cases hb⟩
  | create s bid acct key ids _ hfresh ih =>
    exact inv_create s bid acct key ids ih hfresh
  | to_awaiting_signature s bid json _ ih =>
    exact inv_update_batch s bid _ ih
  | to_signing_in_progress s bid _ ih =>
    exact inv_update_batch s bid _ ih
  | to_awaiting_broadcast s bid json _ ih =>
    exact inv_update_batch s bid _ ih
  | to_broadcasting s bid _ ih =>
    exact inv_update_batch s bid _ ih
  | to_awaiting_confirmation s bid _ ih =>
    exact inv_update_batch s bid _ ih
  | to_confirmed s bid hh hash t _ ih =>
    exact inv_update_batch s bid _ ih
  | to_failed s bid msg _ ih =>
    exact inv_update_batch s bid _ ih
  | retry s s2 bid msg _ heq ih =>
    exact inv_increment s s2 bid msg ih heq
  | payments_bulk s ids st pbid fr _ ih =>
    exact ih

/-- C5: in every state reachable through the store's batch operations,
every batch has retry_count at most MAX_RETRIES; a batch with retry_count
equal to MAX_RETRIES is FAILED (in fact retry_count never exceeds 9, so
this case is empty); and every batch in a non-terminal status has
retry_count strictly below MAX_RETRIES. -/
theorem reachable_retry_bound (s : DbState) (h : StoreReachable s) :
    ∀ b ∈ s.batches,
      b.retry_count ≤ MAX_RETRIES ∧
      (b.retry_count = MAX_RETRIES → b.status = PaymentBatchStatus.failed) ∧
      ((b.status ≠ PaymentBatchStatus.confirmed ∧
        b.status ≠ PaymentBatchStatus.failed) →
        b.retry_count < MAX_RETRIES) := by
  intro b hb
  have hle := (storeReachable_inv s h).2 b hb
  refine ⟨by omega, ?_, ?_⟩
  · intro he
    exact absurd he (by omega)
  · intro _
    omega

/-- Witness for C5 at the state reached by one batch creation. -/
theorem reachable_retry_bound_witness :
    sampleCreatedBatch.retry_count ≤ MAX_RETRIES ∧
    (sampleCreatedBatch.retry_count = MAX_RETRIES →
      sampleCreatedBatch.status = PaymentBatchStatus.failed) ∧
    ((sampleCreatedBatch.status ≠ PaymentBatchStatus.confirmed ∧
      sampleCreatedBatch.status ≠ PaymentBatchStatus.failed) →
      sampleCreatedBatch.retry_count < MAX_RETRIES) := by
  exact reachable_retry_bound sampleCreatedState
    (StoreReachable.create { payments := [], batches := [] } "b1" "alice" "k1" []
      StoreReachable.init (by intro b hb; cases hb))
    sampleCreatedBatch (by decide)
